import Mathlib

/-!
# Verification of the user-service write coordinator (src/api/index.py)

Shallow embedding of the Flask handlers `create_user`, `get_user`,
`update_user`, `delete_user`. The three backing systems are modelled as:

* the Firestore `users` collection: an association list from document id to
  a field mapping (`List (String × FVal)`), since Firestore is a keyed
  document store with atomic per-document set/update/delete;
* the PostGIS `user_locations` table: a list of `GeoRow` (the SQLAlchemy
  session stages inserts/mutations/deletes and applies them at `commit()`,
  or discards them at `rollback()`);
* the Kafka producer: `publish_event` calls are recorded in a call trace.

Numeric latitude/longitude values are embedded by their decimal literals
(`String`): the Python code never computes with them, it only interpolates
them into the WKT string `POINT(lon lat)` (f-string) and parses that string
back (`to_shape`), and Python float repr round-trips exactly.  Each handler
is a pure function from the store state (plus a fault-injection record for
the two operations the `try` block guards: the document write and the
relational `commit`) to the new state, the HTTP response, and the trace of
store/bus calls it performed.  All handlers are modelled past the initial
dependency check (`if not db or not db_session`), i.e. with both store
clients initialized; an absent request body is represented by the empty
payload, matching Python where both `None` and `{}` are falsy.
-/

/-- A field value stored in a Firestore document: either a plain value
(we keep the JSON scalar as a string) or the `firestore.SERVER_TIMESTAMP`
sentinel used for `created_at` / `updated_at`. -/
inductive FVal where
  | str (s : String)
  | timestamp
deriving DecidableEq, Repr

/-- The optional `location` object of a request payload; each coordinate is
present or absent (the "latitude" in location_data checks). -/
structure LocationPayload where
  latitude : Option String
  longitude : Option String
deriving DecidableEq, Repr

/-- A request payload (`request.json`): the distinguished `email`, `name`
and `location` keys plus the remaining profile fields. An absent body is
the payload with every component empty. -/
structure Payload where
  email : Option String
  name : Option String
  location : Option LocationPayload
  extra : List (String × String)
deriving DecidableEq, Repr

/-- Python truthiness of the payload dict: `not user_data` holds exactly
when the dict is empty (or the body was absent). -/
def Payload.isEmpty (p : Payload) : Bool :=
  p.email.isNone && p.name.isNone && p.location.isNone && p.extra.isEmpty

/-- The well-formedness test both handlers apply to a supplied location:
location_data and "latitude" in location_data and "longitude" in
location_data; returns `(lat, lon)` when it passes. -/
def Payload.loc? (p : Payload) : Option (String × String) :=
  match p.location with
  | some l =>
    match l.latitude, l.longitude with
    | some lat, some lon => some (lat, lon)
    | _, _ => none
  | none => none

/-- Mapping `firestore_data` built by `create_user`: the payload minus the popped
`location` key, with `created_at` and `updated_at` server timestamps. -/
def Payload.docFields (p : Payload) : List (String × FVal) :=
  (match p.email with
   | some e => [("email", FVal.str e)]
   | none => []) ++
  (match p.name with
   | some n => [("name", FVal.str n)]
   | none => []) ++
  p.extra.map (fun kv => (kv.1, FVal.str kv.2)) ++
  [("created_at", FVal.timestamp), ("updated_at", FVal.timestamp)]

/-- Mapping `firestore_data` built by `update_user`: the payload minus the popped
`location` key, with `updated_at` stamped unconditionally. -/
def Payload.updFields (p : Payload) : List (String × FVal) :=
  (match p.email with
   | some e => [("email", FVal.str e)]
   | none => []) ++
  (match p.name with
   | some n => [("name", FVal.str n)]
   | none => []) ++
  p.extra.map (fun kv => (kv.1, FVal.str kv.2)) ++
  [("updated_at", FVal.timestamp)]

/-- A row of the `user_locations` table (model `UserLocation`): primary key
`user_id` and the stored WKT `location` value. -/
structure GeoRow where
  user_id : String
  location : String
deriving DecidableEq, Repr

/-- Joint state of the two stores. -/
structure Stores where
  users : List (String × List (String × FVal))
  user_locations : List GeoRow
deriving DecidableEq, Repr

/-- Operation db.collection("users").document(id).get() of the document
store: fetch a document. -/
def docGet? (docs : List (String × List (String × FVal))) (id : String) :
    Option (List (String × FVal)) :=
  (docs.find? (fun kv => kv.1 == id)).map (fun kv => kv.2)

/-- Operation document(id).set(fields): keyed overwrite-or-create. -/
def docSet (docs : List (String × List (String × FVal))) (id : String)
    (fields : List (String × FVal)) : List (String × List (String × FVal)) :=
  (id, fields) :: docs.filter (fun kv => kv.1 != id)

/-- Write one field of a document mapping (overwrite-or-append). -/
def setField (fields : List (String × FVal)) (k : String) (v : FVal) :
    List (String × FVal) :=
  if fields.any (fun kv => kv.1 == k) then
    fields.map (fun kv => if kv.1 == k then (k, v) else kv)
  else fields ++ [(k, v)]

/-- Operation document(id).update(upd): merge the partial mapping into the existing
document (only ever called after the existence check). -/
def docUpdate (docs : List (String × List (String × FVal))) (id : String)
    (upd : List (String × FVal)) : List (String × List (String × FVal)) :=
  match docGet? docs id with
  | some old => docSet docs id (upd.foldl (fun acc kv => setField acc kv.1 kv.2) old)
  | none => docs

/-- Operation document(id).delete(). -/
def docDelete (docs : List (String × List (String × FVal))) (id : String) :
    List (String × List (String × FVal)) :=
  docs.filter (fun kv => kv.1 != id)

/-- Query db_session.query(UserLocation).filter_by(user_id=uid).first(). -/
def findPoint (rows : List GeoRow) (uid : String) : Option GeoRow :=
  rows.find? (fun r => r.user_id == uid)

/-- In-place mutation `location_record.location = wkt` of the row returned
by `.first()` (the first matching row). -/
def mutatePoint : List GeoRow → String → String → List GeoRow
  | [], _, _ => []
  | r :: rs, uid, w =>
    if r.user_id == uid then { user_id := uid, location := w } :: rs
    else r :: mutatePoint rs uid w

/-- Operation db_session.delete(location_record) for the row that the
query returned. -/
def deletePoint : List GeoRow → String → List GeoRow
  | [], _ => []
  | r :: rs, uid => if r.user_id == uid then rs else r :: deletePoint rs uid

/-- Number of `user_locations` rows with the given `user_id`. -/
def countPoints (rows : List GeoRow) (uid : String) : Nat :=
  (rows.filter (fun r => r.user_id == uid)).length

/-- The WKT string the handlers build by f-string interpolation of the two
coordinates, longitude first: POINT(lon lat). -/
def wktPoint (lon lat : String) : String :=
  "POINT(" ++ lon ++ " " ++ lat ++ ")"

/-- Strip an expected prefix from a character list. -/
def stripPre : List Char → List Char → Option (List Char)
  | [], cs => some cs
  | _ :: _, [] => none
  | p :: ps, c :: cs => if c = p then stripPre ps cs else none

/-- Split a character list at its first space. -/
def splitAtSpace : List Char → Option (List Char × List Char)
  | [] => none
  | c :: cs =>
    if c = ' ' then some ([], cs)
    else
      match splitAtSpace cs with
      | some (l, r) => some (c :: l, r)
      | none => none

/-- Modelled from the spec: `geoalchemy2.shape.to_shape`, the external WKT
decoder `get_user` applies to the stored geography value — it recovers the
`x` (longitude) and `y` (latitude) components of a `POINT(x y)` string, and
fails on anything that is not a point. -/
def toShape (s : String) : Option (String × String) :=
  match stripPre "POINT(".data s.data with
  | none => none
  | some body =>
    match body.reverse with
    | [] => none
    | c :: mid =>
      if c = ')' then
        match splitAtSpace mid.reverse with
        | some (x, y) => some (String.mk x, String.mk y)
        | none => none
      else none

/-- HTTP responses of the four handlers (`okUser` carries the JSON body of
a successful GET: document fields, the `id` key, and the optional
`location` key as a `(latitude, longitude)` pair). -/
inductive Resp where
  | created (id : String)
  | okUser (fields : List (String × FVal)) (id : String)
      (location : Option (String × String))
  | okUpdated (id : String)
  | noContent
  | invalidInput
  | notFound
  | storageFailure
deriving DecidableEq, Repr

/-- Trace of store and bus operations a handler performed (staged session
operations are recorded where the Python statement runs; `commit` appears
only when `db_session.commit()` succeeds, `rollback` when the except branch
runs; a store call that raises is not recorded as performed). -/
inductive Call where
  | docRead (id : String)
  | docSet (id : String) (fields : List (String × FVal))
  | docUpdate (id : String) (fields : List (String × FVal))
  | docDelete (id : String)
  | geoQuery (uid : String)
  | geoAdd (uid : String) (wkt : String)
  | geoMutate (uid : String) (wkt : String)
  | geoDelete (uid : String)
  | commit
  | rollback
  | publish (topic : String) (event : String) (uid : String)
deriving DecidableEq, Repr

/-- Whether a trace entry mutates a store. -/
def Call.isWrite : Call → Bool
  | .docSet _ _ => true
  | .docUpdate _ _ => true
  | .docDelete _ => true
  | .geoAdd _ _ => true
  | .geoMutate _ _ => true
  | .geoDelete _ => true
  | .commit => true
  | _ => false

/-- The publish calls of a trace. -/
def publishes (calls : List Call) : List Call :=
  calls.filter fun c =>
    match c with
    | .publish _ _ _ => true
    | _ => false

/-- Fault injection for the two fallible operations inside the `try`
region: the document write (`set`/`update`/`delete`) raising, and
`db_session.commit()` raising `SQLAlchemyError`. -/
structure Faults where
  docWriteFail : Bool
  commitFail : Bool
deriving DecidableEq, Repr

/-- The fault-free execution. -/
def noFaults : Faults := { docWriteFail := false, commitFail := false }

/-- Result of a mutating handler: new store state, HTTP response, trace. -/
structure Out where
  stores : Stores
  resp : Resp
  calls : List Call
deriving DecidableEq, Repr

/-- The LocationPoint insert `create_user` stages when the payload carries
a well-formed location. -/
def stagedRows (fresh : String) (p : Payload) : List GeoRow :=
  match p.loc? with
  | some (lat, lon) => [{ user_id := fresh, location := wktPoint lon lat }]
  | none => []

/-- Handler for POST /users (src/api/index.py, `create_user`): validate, stage the
geo insert, write the document, commit, publish `UserCreated`. -/
def create_user (st : Stores) (fresh : String) (p : Payload) (f : Faults) : Out :=
  if p.isEmpty || p.email.isNone || p.name.isNone then
    { stores := st, resp := .invalidInput, calls := [] }
  else
    let staged := stagedRows fresh p
    let stagedCalls := staged.map (fun r => Call.geoAdd r.user_id r.location)
    if f.docWriteFail then
      { stores := st, resp := .storageFailure, calls := stagedCalls ++ [Call.rollback] }
    else
      let docs1 := docSet st.users fresh p.docFields
      if f.commitFail then
        { stores := { users := docs1, user_locations := st.user_locations },
          resp := .storageFailure,
          calls := stagedCalls ++ [Call.docSet fresh p.docFields, Call.rollback] }
      else
        { stores := { users := docs1, user_locations := st.user_locations ++ staged },
          resp := .created fresh,
          calls := stagedCalls ++ [Call.docSet fresh p.docFields, Call.commit,
            Call.publish "eventos_usuarios" "UserCreated" fresh] }

/-- Handler for GET /users/id (src/api/index.py, `get_user`): read the document
(404 if absent), then read and decode the geo row if one exists. -/
def get_user (st : Stores) (user_id : String) : Resp × List Call :=
  match docGet? st.users user_id with
  | none => (.notFound, [Call.docRead user_id])
  | some fields =>
    match findPoint st.user_locations user_id with
    | some r =>
      match toShape r.location with
      | some (x, y) =>
        (.okUser fields user_id (some (y, x)), [Call.docRead user_id, Call.geoQuery user_id])
      | none => (.storageFailure, [Call.docRead user_id, Call.geoQuery user_id])
    | none => (.okUser fields user_id none, [Call.docRead user_id, Call.geoQuery user_id])

/-- Handler for PUT /users/id (src/api/index.py, `update_user`): validate the body,
check existence, upsert-by-presence the geo row, apply the partial document
update (guarded by `if firestore_data:`), commit, publish `UserUpdated`. -/
def update_user (st : Stores) (user_id : String) (p : Payload) (f : Faults) : Out :=
  if p.isEmpty then
    { stores := st, resp := .invalidInput, calls := [] }
  else
    match docGet? st.users user_id with
    | none => { stores := st, resp := .notFound, calls := [Call.docRead user_id] }
    | some _ =>
      let fsData := p.updFields
      let geoStep :=
        match p.loc? with
        | some (lat, lon) =>
          match findPoint st.user_locations user_id with
          | some _ =>
            (mutatePoint st.user_locations user_id (wktPoint lon lat),
             [Call.geoQuery user_id, Call.geoMutate user_id (wktPoint lon lat)])
          | none =>
            (st.user_locations ++ [GeoRow.mk user_id (wktPoint lon lat)],
             [Call.geoQuery user_id, Call.geoAdd user_id (wktPoint lon lat)])
        | none => (st.user_locations, [])
      if fsData.isEmpty then
        if f.commitFail then
          { stores := st, resp := .storageFailure,
            calls := [Call.docRead user_id] ++ geoStep.2 ++ [Call.rollback] }
        else
          { stores := { users := st.users, user_locations := geoStep.1 },
            resp := .okUpdated user_id,
            calls := [Call.docRead user_id] ++ geoStep.2 ++
              [Call.commit, Call.publish "eventos_usuarios" "UserUpdated" user_id] }
      else if f.docWriteFail then
        { stores := st, resp := .storageFailure,
          calls := [Call.docRead user_id] ++ geoStep.2 ++ [Call.rollback] }
      else
        let docs1 := docUpdate st.users user_id fsData
        if f.commitFail then
          { stores := { users := docs1, user_locations := st.user_locations },
            resp := .storageFailure,
            calls := [Call.docRead user_id] ++ geoStep.2 ++
              [Call.docUpdate user_id fsData, Call.rollback] }
        else
          { stores := { users := docs1, user_locations := geoStep.1 },
            resp := .okUpdated user_id,
            calls := [Call.docRead user_id] ++ geoStep.2 ++
              [Call.docUpdate user_id fsData, Call.commit,
               Call.publish "eventos_usuarios" "UserUpdated" user_id] }

/-- Handler for DELETE /users/id (src/api/index.py, `delete_user`): check
existence, stage the geo delete when a row exists (no-op otherwise),
delete the document, commit, publish `UserDeleted`. -/
def delete_user (st : Stores) (user_id : String) (f : Faults) : Out :=
  match docGet? st.users user_id with
  | none => { stores := st, resp := .notFound, calls := [Call.docRead user_id] }
  | some _ =>
    let geoStep :=
      match findPoint st.user_locations user_id with
      | some _ =>
        (deletePoint st.user_locations user_id,
         [Call.geoQuery user_id, Call.geoDelete user_id])
      | none => (st.user_locations, [Call.geoQuery user_id])
    if f.docWriteFail then
      { stores := st, resp := .storageFailure,
        calls := [Call.docRead user_id] ++ geoStep.2 ++ [Call.rollback] }
    else
      let docs1 := docDelete st.users user_id
      if f.commitFail then
        { stores := { users := docs1, user_locations := st.user_locations },
          resp := .storageFailure,
          calls := [Call.docRead user_id] ++ geoStep.2 ++
            [Call.docDelete user_id, Call.rollback] }
      else
        { stores := { users := docs1, user_locations := geoStep.1 },
          resp := .noContent,
          calls := [Call.docRead user_id] ++ geoStep.2 ++
            [Call.docDelete user_id, Call.commit,
             Call.publish "eventos_usuarios" "UserDeleted" user_id] }

/-! ## Helper lemmas -/

theorem stripPre_append (p cs : List Char) : stripPre p (p ++ cs) = some cs := by
  induction p with
  | nil => rfl
  | cons c ps ih => simp [stripPre, ih]

theorem splitAtSpace_append (l r : List Char) (h : ' ' ∉ l) :
    splitAtSpace (l ++ ' ' :: r) = some (l, r) := by
  induction l with
  | nil => rfl
  | cons c cs ih =>
    have hc : ¬ c = ' ' := fun hc => h (hc ▸ List.mem_cons_self c cs)
    have hcs : ' ' ∉ cs := fun hm => h (List.mem_cons_of_mem c hm)
    simp [splitAtSpace, hc, ih hcs]

theorem toShape_wktPoint (lon lat : String) (h : ' ' ∉ lon.data) :
    toShape (wktPoint lon lat) = some (lon, lat) := by
  have hdata : (wktPoint lon lat).data =
      "POINT(".data ++ (lon.data ++ ' ' :: (lat.data ++ [')'])) := by
    simp [wktPoint, String.data_append]
  have hrev : (lon.data ++ ' ' :: (lat.data ++ [')'])).reverse =
      ')' :: (lat.data.reverse ++ ' ' :: lon.data.reverse) := by
    simp
  have hrevrev : (lat.data.reverse ++ ' ' :: lon.data.reverse).reverse =
      lon.data ++ ' ' :: lat.data.reverse.reverse := by
    simp
  simp only [toShape, hdata, stripPre_append, hrev, hrevrev, List.reverse_reverse,
    if_pos rfl]
  simp [splitAtSpace_append lon.data lat.data h]

theorem docGet?_docSet_self (docs : List (String × List (String × FVal)))
    (id : String) (fields : List (String × FVal)) :
    docGet? (docSet docs id fields) id = some fields := by
  simp [docGet?, docSet, List.find?]

theorem docGet?_docDelete_self (docs : List (String × List (String × FVal)))
    (id : String) : docGet? (docDelete docs id) id = none := by
  have : (docDelete docs id).find? (fun kv => kv.1 == id) = none := by
    rw [List.find?_eq_none]
    intro x hx
    have := (List.mem_filter.mp hx).2
    simpa using this
  simp [docGet?, this]


theorem findPoint_append_single (rows : List GeoRow) (uid w : String)
    (h : findPoint rows uid = none) :
    findPoint (rows ++ [GeoRow.mk uid w]) uid = some (GeoRow.mk uid w) := by
  unfold findPoint at h ⊢
  rw [List.find?_append, h, Option.none_or]
  simp [List.find?]

theorem countPoints_append (rows rows' : List GeoRow) (uid : String) :
    countPoints (rows ++ rows') uid = countPoints rows uid + countPoints rows' uid := by
  simp [countPoints, List.filter_append]

theorem countPoints_eq_zero_of_findPoint_none (rows : List GeoRow) (uid : String)
    (h : findPoint rows uid = none) : countPoints rows uid = 0 := by
  simp only [findPoint, List.find?_eq_none] at h
  simp only [countPoints, List.length_eq_zero]
  rw [List.filter_eq_nil_iff]
  exact h

theorem countPoints_mutatePoint (rows : List GeoRow) (uid w : String) :
    countPoints (mutatePoint rows uid w) uid = countPoints rows uid := by
  induction rows with
  | nil => rfl
  | cons r rs ih =>
    unfold countPoints at ih ⊢
    by_cases hr : r.user_id = uid
    · simp [mutatePoint, hr, List.filter_cons, ih]
    · have hb : (r.user_id == uid) = false := by simp [hr]
      simp [mutatePoint, hb, List.filter_cons, ih]

theorem length_mutatePoint (rows : List GeoRow) (uid w : String) :
    (mutatePoint rows uid w).length = rows.length := by
  induction rows with
  | nil => rfl
  | cons r rs ih =>
    by_cases hr : r.user_id = uid
    · simp [mutatePoint, hr]
    · have hb : (r.user_id == uid) = false := by simp [hr]
      simp [mutatePoint, hb, ih]

theorem findPoint_mutatePoint (rows : List GeoRow) (uid w : String)
    (h : (findPoint rows uid).isSome) :
    findPoint (mutatePoint rows uid w) uid = some (GeoRow.mk uid w) := by
  induction rows with
  | nil => simp [findPoint] at h
  | cons r rs ih =>
    by_cases hr : r.user_id = uid
    · simp [mutatePoint, findPoint, hr, List.find?_cons]
    · have hb : (r.user_id == uid) = false := by simp [hr]
      have h' : (findPoint rs uid).isSome := by
        simpa [findPoint, List.find?_cons, hb] using h
      have := ih h'
      simpa [mutatePoint, findPoint, hb, List.find?_cons] using this

theorem countPoints_cons_pos (r : GeoRow) (rs : List GeoRow) (uid : String)
    (h : r.user_id = uid) :
    countPoints (r :: rs) uid = countPoints rs uid + 1 := by
  simp [countPoints, List.filter_cons, h]

theorem countPoints_cons_neg (r : GeoRow) (rs : List GeoRow) (uid : String)
    (h : ¬ r.user_id = uid) :
    countPoints (r :: rs) uid = countPoints rs uid := by
  have hb : (r.user_id == uid) = false := by simp [h]
  simp [countPoints, List.filter_cons, hb]

theorem findPoint_deletePoint (rows : List GeoRow) (uid : String)
    (h : countPoints rows uid ≤ 1) :
    findPoint (deletePoint rows uid) uid = none := by
  induction rows with
  | nil => rfl
  | cons r rs ih =>
    by_cases hr : r.user_id = uid
    · have hc : countPoints rs uid = 0 := by
        have := countPoints_cons_pos r rs uid hr
        omega
      have hall : ∀ x ∈ rs, ¬ (x.user_id == uid) = true := by
        intro x hx hbeq
        have hmem : x ∈ rs.filter (fun r => r.user_id == uid) :=
          List.mem_filter.mpr ⟨hx, hbeq⟩
        have hpos := List.length_pos.mpr (List.ne_nil_of_mem hmem)
        simp only [countPoints] at hc
        omega
      simp only [deletePoint, beq_iff_eq, hr, if_pos rfl]
      exact List.find?_eq_none.mpr hall
    · have hb : (r.user_id == uid) = false := by simp [hr]
      have h' : countPoints rs uid ≤ 1 := by
        have := countPoints_cons_neg r rs uid hr
        omega
      have := ih h'
      simpa [deletePoint, findPoint, hb, List.find?_cons] using this

/-! ## Shared concrete inputs for witnesses -/

/-- Location of the concrete scenario in the spec. -/
def sampleLoc : LocationPayload := { latitude := some "-23.5", longitude := some "-46.6" }

/-- Payload of the concrete scenario in the spec. -/
def samplePayload : Payload :=
  { email := some "a@b.com", name := some "A", location := some sampleLoc, extra := [] }

/-- A valid payload without a location. -/
def samplePayloadNoLoc : Payload :=
  { email := some "a@b.com", name := some "A", location := none, extra := [] }

/-- The empty payload (absent or `{}` request body). -/
def emptyPayload : Payload := { email := none, name := none, location := none, extra := [] }

/-- Empty stores. -/
def emptyStores : Stores := { users := [], user_locations := [] }

/-! ## Further helper lemmas -/

theorem create_cond_false (p : Payload) (hm : p.email.isSome) (hn : p.name.isSome) :
    (p.isEmpty || p.email.isNone || p.name.isNone) = false := by
  obtain ⟨e, he⟩ := Option.isSome_iff_exists.mp hm
  obtain ⟨n, hn'⟩ := Option.isSome_iff_exists.mp hn
  simp [Payload.isEmpty, he, hn']

theorem create_cond_iff (p : Payload) :
    (p.isEmpty || p.email.isNone || p.name.isNone) = true ↔
      (p.email = none ∨ p.name = none) := by
  cases he : p.email <;> cases hn : p.name <;> simp [Payload.isEmpty, he, hn]

theorem updFields_ne_nil (p : Payload) : p.updFields ≠ [] := by
  intro h
  have := congrArg List.length h
  simp [Payload.updFields] at this

theorem updFields_isEmpty_false (p : Payload) : p.updFields.isEmpty = false := by
  rw [List.isEmpty_eq_false_iff_exists_mem]
  exact ⟨("updated_at", FVal.timestamp), by simp [Payload.updFields]⟩

theorem updatedAt_mem_updFields (p : Payload) :
    ("updated_at", FVal.timestamp) ∈ p.updFields := by
  simp [Payload.updFields]

theorem isEmpty_false_of_loc (p : Payload) (lat lon : String)
    (hloc : p.loc? = some (lat, lon)) : p.isEmpty = false := by
  cases hl : p.location with
  | none => simp [Payload.loc?, hl] at hloc
  | some l => simp [Payload.isEmpty, hl]

/-! ## Claims -/

/-- C7: for every `user_id` with no document in the document store,
`get_user` signals NotFound — whatever the geo store holds — and performs
no store mutation (its trace is the single document read). -/
theorem get_user_missing_doc (st : Stores) (uid : String)
    (h : docGet? st.users uid = none) :
    get_user st uid = (Resp.notFound, [Call.docRead uid]) ∧
    ∀ c ∈ (get_user st uid).2, c.isWrite = false := by
  refine ⟨by simp [get_user, h], ?_⟩
  intro c hc
  simp [get_user, h] at hc
  subst hc
  rfl

/-- Witness for C7 at a state whose geo store does hold a row for the id. -/
theorem get_user_missing_doc_witness :
    get_user { users := [], user_locations := [GeoRow.mk "u1" "POINT(1 2)"] } "u1" =
      (Resp.notFound, [Call.docRead "u1"]) :=
  (get_user_missing_doc
    { users := [], user_locations := [GeoRow.mk "u1" "POINT(1 2)"] } "u1" rfl).1

/-- C10: an empty (or absent) update payload is rejected with InvalidInput
before the existence check, for any target id and any store state: no store
is read or mutated (the trace is empty), so a nonexistent id still yields
InvalidInput rather than NotFound. -/
theorem update_user_empty_payload (st : Stores) (uid : String) (p : Payload)
    (f : Faults) (h : p.isEmpty = true) :
    update_user st uid p f = { stores := st, resp := Resp.invalidInput, calls := [] } := by
  simp [update_user, h]

/-- Witness for C10: empty payload against a store with no such user. -/
theorem update_user_empty_payload_witness :
    update_user emptyStores "ghost" emptyPayload noFaults =
      { stores := emptyStores, resp := Resp.invalidInput, calls := [] } :=
  update_user_empty_payload emptyStores "ghost" emptyPayload noFaults (by decide)

/-- C4 counterexample: a payload whose `email` and `name` keys are present
but hold EMPTY strings passes validation — `create_user` checks only key
presence ("email" not in user_data), never non-emptiness — so the
request is created rather than rejected with InvalidInput. -/
theorem create_user_empty_strings_pass :
    (create_user emptyStores "u1"
        { email := some "", name := some "", location := none, extra := [] }
        noFaults).resp = Resp.created "u1" := by
  decide

/-- C4 (amended): `create_user` signals InvalidInput exactly when the
payload is empty/absent or lacks the `email` key or the `name` key (values
are not inspected, so empty strings pass); on the invalid path nothing is
read or written and the state is unchanged. -/
theorem create_user_validation (st : Stores) (fresh : String) (p : Payload)
    (f : Faults) :
    ((create_user st fresh p f).resp = Resp.invalidInput ↔
      (p.email = none ∨ p.name = none)) ∧
    (p.email = none ∨ p.name = none →
      create_user st fresh p f = { stores := st, resp := Resp.invalidInput, calls := [] }) := by
  by_cases hc : (p.isEmpty || p.email.isNone || p.name.isNone) = true
  · have hv := (create_cond_iff p).mp hc
    exact ⟨by simp [create_user, hc, hv], fun _ => by simp [create_user, hc]⟩
  · have hcf : (p.isEmpty || p.email.isNone || p.name.isNone) = false :=
      Bool.eq_false_iff.mpr hc
    have hnot : ¬ (p.email = none ∨ p.name = none) := fun h =>
      hc ((create_cond_iff p).mpr h)
    have hresp : (create_user st fresh p f).resp ≠ Resp.invalidInput := by
      cases hd : f.docWriteFail <;> cases hcm : f.commitFail <;>
        simp [create_user, hcf, hd, hcm]
    exact ⟨⟨fun hr => absurd hr hresp, fun h => absurd h hnot⟩,
      fun h => absurd h hnot⟩

/-- Witness for the amended C4 theorem: a payload missing the `name` key is
rejected and the state is untouched. -/
theorem create_user_validation_witness :
    create_user emptyStores "u1"
        { email := some "a@b.com", name := none, location := none, extra := [] }
        noFaults =
      { stores := emptyStores, resp := Resp.invalidInput, calls := [] } :=
  (create_user_validation emptyStores "u1"
    { email := some "a@b.com", name := none, location := none, extra := [] }
    noFaults).2 (Or.inr rfl)

/-- C9: whenever `update_user` passes validation and the existence check,
the partial mapping sent to the document store always carries the
`updated_at` stamp and is therefore never empty — even for a body holding
only `location` — so (absent a document-write fault) a document update call
is always issued. -/
theorem update_user_always_updates_doc (st : Stores) (uid : String) (p : Payload)
    (f : Faults) (hne : p.isEmpty = false) (hdoc : (docGet? st.users uid).isSome)
    (hf : f.docWriteFail = false) :
    p.updFields ≠ [] ∧
    ("updated_at", FVal.timestamp) ∈ p.updFields ∧
    Call.docUpdate uid p.updFields ∈ (update_user st uid p f).calls := by
  refine ⟨updFields_ne_nil p, updatedAt_mem_updFields p, ?_⟩
  obtain ⟨d, hd⟩ := Option.isSome_iff_exists.mp hdoc
  cases hcm : f.commitFail <;>
    simp [update_user, hne, hd, updFields_isEmpty_false, hf, hcm]

/-- Witness for C9: a body holding only `location` still issues a document
update stamping `updated_at`. -/
theorem update_user_always_updates_doc_witness :
    Call.docUpdate "u1"
        (Payload.updFields { email := none, name := none, location := some sampleLoc, extra := [] }) ∈
      (update_user { users := [("u1", [])], user_locations := [] } "u1"
        { email := none, name := none, location := some sampleLoc, extra := [] }
        noFaults).calls :=
  (update_user_always_updates_doc { users := [("u1", [])], user_locations := [] } "u1"
    { email := none, name := none, location := some sampleLoc, extra := [] }
    noFaults (by decide) (by decide) rfl).2.2

theorem publishes_append (a b : List Call) :
    publishes (a ++ b) = publishes a ++ publishes b := by
  simp [publishes, List.filter_append]

theorem publishes_geoAdd_map (l : List GeoRow) :
    publishes (l.map (fun r => Call.geoAdd r.user_id r.location)) = [] := by
  induction l with
  | nil => rfl
  | cons r rs ih => simp [publishes, List.filter_cons, ih]

/-- C1: in `create_user`, past validation, the relational commit happens
only after the document write succeeded (fault-free trace: staged geo
insert, document set, commit, publish); a failing document write rolls the
relational transaction back, leaves every store untouched and signals the
storage failure; a failing commit also rolls back and signals the failure,
leaving no committed geo row for the generated id. -/
theorem create_user_txn (st : Stores) (fresh : String) (p : Payload) (f : Faults)
    (hm : p.email.isSome) (hn : p.name.isSome)
    (hfresh : findPoint st.user_locations fresh = none) :
    (f = noFaults →
      (create_user st fresh p f).calls =
        (stagedRows fresh p).map (fun r => Call.geoAdd r.user_id r.location) ++
          [Call.docSet fresh p.docFields, Call.commit,
           Call.publish "eventos_usuarios" "UserCreated" fresh]) ∧
    (f.docWriteFail = true →
      (create_user st fresh p f).resp = Resp.storageFailure ∧
      (create_user st fresh p f).stores = st ∧
      Call.commit ∉ (create_user st fresh p f).calls ∧
      Call.rollback ∈ (create_user st fresh p f).calls ∧
      countPoints (create_user st fresh p f).stores.user_locations fresh = 0) ∧
    (f.docWriteFail = false → f.commitFail = true →
      (create_user st fresh p f).resp = Resp.storageFailure ∧
      (create_user st fresh p f).stores.user_locations = st.user_locations ∧
      Call.commit ∉ (create_user st fresh p f).calls ∧
      Call.rollback ∈ (create_user st fresh p f).calls ∧
      countPoints (create_user st fresh p f).stores.user_locations fresh = 0) := by
  have hcf := create_cond_false p hm hn
  have hzero := countPoints_eq_zero_of_findPoint_none st.user_locations fresh hfresh
  refine ⟨?_, ?_, ?_⟩
  · intro hf
    subst hf
    simp [create_user, hcf, noFaults]
  · intro hd
    refine ⟨by simp [create_user, hcf, hd], by simp [create_user, hcf, hd], ?_, ?_, ?_⟩
    · simp [create_user, hcf, hd, List.mem_append, List.mem_map]
    · simp [create_user, hcf, hd, List.mem_append]
    · simp [create_user, hcf, hd, hzero]
  · intro hd hcm
    refine ⟨by simp [create_user, hcf, hd, hcm], by simp [create_user, hcf, hd, hcm],
      ?_, ?_, ?_⟩
    · simp [create_user, hcf, hd, hcm, List.mem_append, List.mem_map]
    · simp [create_user, hcf, hd, hcm, List.mem_append]
    · simpa [create_user, hcf, hd, hcm] using hzero

/-- Witness for C1: the fault-free trace, a document-write fault, and a
commit fault on the concrete scenario of the spec. -/
theorem create_user_txn_witness :
    (create_user emptyStores "u1" samplePayload noFaults).calls =
        (stagedRows "u1" samplePayload).map (fun r => Call.geoAdd r.user_id r.location) ++
          [Call.docSet "u1" samplePayload.docFields, Call.commit,
           Call.publish "eventos_usuarios" "UserCreated" "u1"] ∧
    (create_user emptyStores "u1" samplePayload
        { docWriteFail := true, commitFail := false }).stores = emptyStores ∧
    countPoints (create_user emptyStores "u1" samplePayload
        { docWriteFail := false, commitFail := true }).stores.user_locations "u1" = 0 :=
  ⟨(create_user_txn emptyStores "u1" samplePayload noFaults (by decide) (by decide)
      (by decide)).1 rfl,
   ((create_user_txn emptyStores "u1" samplePayload
      { docWriteFail := true, commitFail := false } (by decide) (by decide)
      (by decide)).2.1 rfl).2.1,
   ((create_user_txn emptyStores "u1" samplePayload
      { docWriteFail := false, commitFail := true } (by decide) (by decide)
      (by decide)).2.2 rfl rfl).2.2.2.2⟩

/-- C2: each of create/update/delete publishes exactly one event on
success — `UserCreated`/`UserUpdated`/`UserDeleted`, keyed by the target
user id — and publishes nothing when it ends in a storage failure. -/
theorem publish_per_operation (st : Stores) (id : String) (p : Payload) (f : Faults) :
    ((∀ rid, (create_user st id p f).resp = Resp.created rid →
        publishes (create_user st id p f).calls =
          [Call.publish "eventos_usuarios" "UserCreated" rid]) ∧
      ((create_user st id p f).resp = Resp.storageFailure →
        publishes (create_user st id p f).calls = [])) ∧
    (((update_user st id p f).resp = Resp.okUpdated id →
        publishes (update_user st id p f).calls =
          [Call.publish "eventos_usuarios" "UserUpdated" id]) ∧
      ((update_user st id p f).resp = Resp.storageFailure →
        publishes (update_user st id p f).calls = [])) ∧
    (((delete_user st id f).resp = Resp.noContent →
        publishes (delete_user st id f).calls =
          [Call.publish "eventos_usuarios" "UserDeleted" id]) ∧
      ((delete_user st id f).resp = Resp.storageFailure →
        publishes (delete_user st id f).calls = [])) := by
  have hfs := updFields_isEmpty_false p
  refine ⟨⟨?_, ?_⟩, ⟨?_, ?_⟩, ⟨?_, ?_⟩⟩
  · intro rid hr
    by_cases hc : (p.isEmpty || p.email.isNone || p.name.isNone) = true
    · simp [create_user, hc] at hr
    · have hcf := Bool.eq_false_iff.mpr hc
      cases hd : f.docWriteFail with
      | true => simp [create_user, hcf, hd] at hr
      | false =>
        cases hcm : f.commitFail with
        | true => simp [create_user, hcf, hd, hcm] at hr
        | false =>
          have hrid : id = rid := by simpa [create_user, hcf, hd, hcm] using hr
          subst hrid
          simp [create_user, hcf, hd, hcm, publishes_append, publishes_geoAdd_map,
            publishes, List.filter_cons]
  · intro hr
    by_cases hc : (p.isEmpty || p.email.isNone || p.name.isNone) = true
    · simp [create_user, hc] at hr
    · have hcf := Bool.eq_false_iff.mpr hc
      cases hd : f.docWriteFail with
      | true =>
        simp [create_user, hcf, hd, publishes_append, publishes_geoAdd_map,
          publishes, List.filter_cons]
      | false =>
        cases hcm : f.commitFail with
        | true =>
          simp [create_user, hcf, hd, hcm, publishes_append, publishes_geoAdd_map,
            publishes, List.filter_cons]
        | false => simp [create_user, hcf, hd, hcm] at hr
  · intro hr
    by_cases hne : p.isEmpty = true
    · simp [update_user, hne] at hr
    · have hne' := Bool.eq_false_iff.mpr hne
      cases hdoc : docGet? st.users id with
      | none => simp [update_user, hne', hdoc] at hr
      | some d =>
        cases hd : f.docWriteFail with
        | true =>
          cases hloc : p.loc? with
          | none => simp [update_user, hne', hdoc, hfs, hd, hloc] at hr
          | some latlon =>
            obtain ⟨lat, lon⟩ := latlon
            cases hfp : findPoint st.user_locations id <;>
              simp [update_user, hne', hdoc, hfs, hd, hloc, hfp] at hr
        | false =>
          cases hcm : f.commitFail with
          | true =>
            cases hloc : p.loc? with
            | none => simp [update_user, hne', hdoc, hfs, hd, hcm, hloc] at hr
            | some latlon =>
              obtain ⟨lat, lon⟩ := latlon
              cases hfp : findPoint st.user_locations id <;>
                simp [update_user, hne', hdoc, hfs, hd, hcm, hloc, hfp] at hr
          | false =>
            cases hloc : p.loc? with
            | none =>
              simp [update_user, hne', hdoc, hfs, hd, hcm, hloc,
                publishes_append, publishes, List.filter_cons]
            | some latlon =>
              obtain ⟨lat, lon⟩ := latlon
              cases hfp : findPoint st.user_locations id <;>
                simp [update_user, hne', hdoc, hfs, hd, hcm, hloc, hfp,
                  publishes_append, publishes, List.filter_cons]
  · intro hr
    by_cases hne : p.isEmpty = true
    · simp [update_user, hne] at hr
    · have hne' := Bool.eq_false_iff.mpr hne
      cases hdoc : docGet? st.users id with
      | none => simp [update_user, hne', hdoc] at hr
      | some d =>
        cases hd : f.docWriteFail with
        | true =>
          cases hloc : p.loc? with
          | none =>
            simp [update_user, hne', hdoc, hfs, hd, hloc,
              publishes_append, publishes, List.filter_cons]
          | some latlon =>
            obtain ⟨lat, lon⟩ := latlon
            cases hfp : findPoint st.user_locations id <;>
              simp [update_user, hne', hdoc, hfs, hd, hloc, hfp,
                publishes_append, publishes, List.filter_cons]
        | false =>
          cases hcm : f.commitFail with
          | true =>
            cases hloc : p.loc? with
            | none =>
              simp [update_user, hne', hdoc, hfs, hd, hcm, hloc,
                publishes_append, publishes, List.filter_cons]
            | some latlon =>
              obtain ⟨lat, lon⟩ := latlon
              cases hfp : findPoint st.user_locations id <;>
                simp [update_user, hne', hdoc, hfs, hd, hcm, hloc, hfp,
                  publishes_append, publishes, List.filter_cons]
          | false =>
            cases hloc : p.loc? with
            | none => simp [update_user, hne', hdoc, hfs, hd, hcm, hloc] at hr
            | some latlon =>
              obtain ⟨lat, lon⟩ := latlon
              cases hfp : findPoint st.user_locations id <;>
                simp [update_user, hne', hdoc, hfs, hd, hcm, hloc, hfp] at hr
  · intro hr
    cases hdoc : docGet? st.users id with
    | none => simp [delete_user, hdoc] at hr
    | some d =>
      cases hd : f.docWriteFail with
      | true =>
        cases hfp : findPoint st.user_locations id <;>
          simp [delete_user, hdoc, hd, hfp] at hr
      | false =>
        cases hcm : f.commitFail with
        | true =>
          cases hfp : findPoint st.user_locations id <;>
            simp [delete_user, hdoc, hd, hcm, hfp] at hr
        | false =>
          cases hfp : findPoint st.user_locations id <;>
            simp [delete_user, hdoc, hd, hcm, hfp,
              publishes_append, publishes, List.filter_cons]
  · intro hr
    cases hdoc : docGet? st.users id with
    | none => simp [delete_user, hdoc] at hr
    | some d =>
      cases hd : f.docWriteFail with
      | true =>
        cases hfp : findPoint st.user_locations id <;>
          simp [delete_user, hdoc, hd, hfp, publishes_append, publishes,
            List.filter_cons]
      | false =>
        cases hcm : f.commitFail with
        | true =>
          cases hfp : findPoint st.user_locations id <;>
            simp [delete_user, hdoc, hd, hcm, hfp, publishes_append, publishes,
              List.filter_cons]
        | false =>
          cases hfp : findPoint st.user_locations id <;>
            simp [delete_user, hdoc, hd, hcm, hfp] at hr

/-- Witness for C2: on the concrete scenario, a fault-free create publishes
exactly the `UserCreated` event, and a create whose commit fails publishes
nothing. -/
theorem publish_per_operation_witness :
    publishes (create_user emptyStores "u1" samplePayload noFaults).calls =
        [Call.publish "eventos_usuarios" "UserCreated" "u1"] ∧
    publishes (create_user emptyStores "u1" samplePayload
        { docWriteFail := false, commitFail := true }).calls = [] :=
  ⟨(publish_per_operation emptyStores "u1" samplePayload noFaults).1.1 "u1" (by decide),
   (publish_per_operation emptyStores "u1" samplePayload
      { docWriteFail := false, commitFail := true }).1.2 (by decide)⟩

/-- C3: creating a user from a valid payload carrying latitude `lat` and
longitude `lon` stores the document and exactly the geo row whose value is
the WKT string `POINT(lon lat)` (longitude first), and `get_user` decodes
that row back to the identical `(lat, lon)` pair — the round-trip through
the WKT encoding is exact (`lon` is any space-free literal, which every
numeric literal is). -/
theorem create_user_location_roundtrip (st : Stores) (fresh : String) (p : Payload)
    (lat lon : String) (hm : p.email.isSome) (hn : p.name.isSome)
    (hloc : p.loc? = some (lat, lon)) (hsp : ' ' ∉ lon.data)
    (hfresh : findPoint st.user_locations fresh = none) :
    docGet? (create_user st fresh p noFaults).stores.users fresh = some p.docFields ∧
    findPoint (create_user st fresh p noFaults).stores.user_locations fresh =
      some (GeoRow.mk fresh (wktPoint lon lat)) ∧
    (get_user (create_user st fresh p noFaults).stores fresh).1 =
      Resp.okUser p.docFields fresh (some (lat, lon)) := by
  have hcf := create_cond_false p hm hn
  have hst : (create_user st fresh p noFaults).stores =
      { users := docSet st.users fresh p.docFields,
        user_locations := st.user_locations ++ [GeoRow.mk fresh (wktPoint lon lat)] } := by
    simp [create_user, hcf, noFaults, stagedRows, hloc]
  have hgdoc := docGet?_docSet_self st.users fresh p.docFields
  have hgeo := findPoint_append_single st.user_locations fresh (wktPoint lon lat) hfresh
  refine ⟨by rw [hst]; exact hgdoc, by rw [hst]; exact hgeo, ?_⟩
  rw [hst]
  simp [get_user, hgdoc, hgeo, toShape_wktPoint lon lat hsp]

/-- Witness for C3 on the concrete scenario of the spec
(latitude -23.5, longitude -46.6). -/
theorem create_user_location_roundtrip_witness :
    findPoint (create_user emptyStores "u1" samplePayload noFaults).stores.user_locations "u1" =
      some (GeoRow.mk "u1" "POINT(-46.6 -23.5)") ∧
    (get_user (create_user emptyStores "u1" samplePayload noFaults).stores "u1").1 =
      Resp.okUser samplePayload.docFields "u1" (some ("-23.5", "-46.6")) :=
  ⟨(create_user_location_roundtrip emptyStores "u1" samplePayload "-23.5" "-46.6"
      (by decide) (by decide) (by decide) (by decide) (by decide)).2.1,
   (create_user_location_roundtrip emptyStores "u1" samplePayload "-23.5" "-46.6"
      (by decide) (by decide) (by decide) (by decide) (by decide)).2.2⟩

/-- A store holding one user document `u1` with no fields. -/
def stOne : Stores := { users := [("u1", [])], user_locations := [] }

/-- A store holding user `u1` and its geo row for the concrete scenario. -/
def stOneRow : Stores :=
  { users := [("u1", [])], user_locations := [GeoRow.mk "u1" "POINT(-46.6 -23.5)"] }

/-- An update body holding only `location` (the concrete scenario point). -/
def pLocOnly : Payload :=
  { email := none, name := none, location := some sampleLoc, extra := [] }

/-- An update body holding only `location` (the second scenario point). -/
def pLocOnly2 : Payload :=
  { email := none, name := none,
    location := some { latitude := some "-10.0", longitude := some "-20.0" },
    extra := [] }

/-- C5: a fault-free `update_user` of an existing user with a well-formed
location upserts by presence: with no prior geo row it appends exactly one
new row for the id; with a prior row it mutates the WKT value of that row in
place — same list length, same per-id row count, no duplicate inserted. -/
theorem update_user_geo_upsert (st : Stores) (uid : String) (p : Payload)
    (lat lon : String) (hdoc : (docGet? st.users uid).isSome)
    (hloc : p.loc? = some (lat, lon)) :
    (findPoint st.user_locations uid = none →
      (update_user st uid p noFaults).stores.user_locations =
        st.user_locations ++ [GeoRow.mk uid (wktPoint lon lat)] ∧
      countPoints (update_user st uid p noFaults).stores.user_locations uid = 1) ∧
    ((findPoint st.user_locations uid).isSome →
      (update_user st uid p noFaults).stores.user_locations =
        mutatePoint st.user_locations uid (wktPoint lon lat) ∧
      countPoints (update_user st uid p noFaults).stores.user_locations uid =
        countPoints st.user_locations uid ∧
      (update_user st uid p noFaults).stores.user_locations.length =
        st.user_locations.length ∧
      findPoint (update_user st uid p noFaults).stores.user_locations uid =
        some (GeoRow.mk uid (wktPoint lon lat))) := by
  have hne := isEmpty_false_of_loc p lat lon hloc
  have hfs := updFields_isEmpty_false p
  obtain ⟨d, hd⟩ := Option.isSome_iff_exists.mp hdoc
  constructor
  · intro hfp
    have hul : (update_user st uid p noFaults).stores.user_locations =
        st.user_locations ++ [GeoRow.mk uid (wktPoint lon lat)] := by
      simp [update_user, hne, hd, hfs, hloc, hfp, noFaults]
    refine ⟨hul, ?_⟩
    rw [hul, countPoints_append, countPoints_eq_zero_of_findPoint_none _ _ hfp]
    simp [countPoints, List.filter]
  · intro hfp
    obtain ⟨r, hr⟩ := Option.isSome_iff_exists.mp hfp
    have hul : (update_user st uid p noFaults).stores.user_locations =
        mutatePoint st.user_locations uid (wktPoint lon lat) := by
      simp [update_user, hne, hd, hfs, hloc, hr, noFaults]
    refine ⟨hul, ?_, ?_, ?_⟩
    · rw [hul, countPoints_mutatePoint]
    · rw [hul, length_mutatePoint]
    · rw [hul, findPoint_mutatePoint _ _ _ hfp]

/-- Witness for C5: insert-on-absence, then mutate-in-place on the second
update (row count stays one). -/
theorem update_user_geo_upsert_witness :
    (update_user stOne "u1" pLocOnly noFaults).stores.user_locations =
        [GeoRow.mk "u1" "POINT(-46.6 -23.5)"] ∧
    (update_user stOneRow "u1" pLocOnly2 noFaults).stores.user_locations =
        [GeoRow.mk "u1" "POINT(-20.0 -10.0)"] ∧
    countPoints (update_user stOneRow "u1" pLocOnly2 noFaults).stores.user_locations
        "u1" = 1 := by
  refine ⟨?_, ?_, ?_⟩
  · have h := ((update_user_geo_upsert stOne "u1" pLocOnly "-23.5" "-46.6"
      (by decide) (by decide)).1 (by decide)).1
    simpa [stOne] using h
  · have h := ((update_user_geo_upsert stOneRow "u1" pLocOnly2 "-10.0" "-20.0"
      (by decide) (by decide)).2 (by decide)).1
    simpa [stOneRow, mutatePoint, wktPoint] using h
  · have h := ((update_user_geo_upsert stOneRow "u1" pLocOnly2 "-10.0" "-20.0"
      (by decide) (by decide)).2 (by decide)).2.1
    rw [h]
    decide

/-- The store the C6 witness deletes from: one document and its geo row. -/
def stDel : Stores :=
  { users := [("u1", [("email", FVal.str "a@b.com")])],
    user_locations := [GeoRow.mk "u1" "POINT(-46.6 -23.5)"] }

/-- C6: a fault-free `delete_user` of an existing user removes the document
and the geo row (with the geo delete a no-op, not an error, when no row
exists; at most one row per id being the key invariant of the table), and a second
delete of the same id signals NotFound and changes nothing. -/
theorem delete_user_removes_both (st : Stores) (uid : String)
    (hdoc : (docGet? st.users uid).isSome)
    (hgeo : countPoints st.user_locations uid ≤ 1) :
    (delete_user st uid noFaults).resp = Resp.noContent ∧
    docGet? (delete_user st uid noFaults).stores.users uid = none ∧
    findPoint (delete_user st uid noFaults).stores.user_locations uid = none ∧
    delete_user (delete_user st uid noFaults).stores uid noFaults =
      { stores := (delete_user st uid noFaults).stores, resp := Resp.notFound,
        calls := [Call.docRead uid] } := by
  obtain ⟨d, hd⟩ := Option.isSome_iff_exists.mp hdoc
  have hresp : (delete_user st uid noFaults).resp = Resp.noContent := by
    cases hfp : findPoint st.user_locations uid <;>
      simp [delete_user, hd, hfp, noFaults]
  have hua : docGet? (delete_user st uid noFaults).stores.users uid = none := by
    have husers : (delete_user st uid noFaults).stores.users = docDelete st.users uid := by
      cases hfp : findPoint st.user_locations uid <;>
        simp [delete_user, hd, hfp, noFaults]
    rw [husers]
    exact docGet?_docDelete_self st.users uid
  have hfa : findPoint (delete_user st uid noFaults).stores.user_locations uid = none := by
    cases hfp : findPoint st.user_locations uid with
    | none =>
      have hul : (delete_user st uid noFaults).stores.user_locations =
          st.user_locations := by
        simp [delete_user, hd, hfp, noFaults]
      rw [hul]
      exact hfp
    | some r =>
      have hul : (delete_user st uid noFaults).stores.user_locations =
          deletePoint st.user_locations uid := by
        simp [delete_user, hd, hfp, noFaults]
      rw [hul]
      exact findPoint_deletePoint st.user_locations uid hgeo
  refine ⟨hresp, hua, hfa, ?_⟩
  set s2 := (delete_user st uid noFaults).stores with hs2
  simp [delete_user, hua]

/-- Witness for C6: delete a user holding a geo row, then delete again. -/
theorem delete_user_removes_both_witness :
    (delete_user stDel "u1" noFaults).resp = Resp.noContent ∧
    (delete_user (delete_user stDel "u1" noFaults).stores "u1" noFaults).resp =
      Resp.notFound := by
  have h := delete_user_removes_both stDel "u1" (by decide) (by decide)
  exact ⟨h.1, by rw [h.2.2.2]⟩

/-- C8: creating from a valid payload without a (well-formed) location adds
no geo row, and a subsequent `get_user` of the new id answers without the
`location` key — the absent geo row is not an error. -/
theorem create_user_no_location (st : Stores) (fresh : String) (p : Payload)
    (hm : p.email.isSome) (hn : p.name.isSome) (hloc : p.loc? = none)
    (hfresh : findPoint st.user_locations fresh = none) :
    (create_user st fresh p noFaults).resp = Resp.created fresh ∧
    (create_user st fresh p noFaults).stores.user_locations = st.user_locations ∧
    (get_user (create_user st fresh p noFaults).stores fresh).1 =
      Resp.okUser p.docFields fresh none := by
  have hcf := create_cond_false p hm hn
  have hst : (create_user st fresh p noFaults).stores =
      { users := docSet st.users fresh p.docFields,
        user_locations := st.user_locations } := by
    simp [create_user, hcf, noFaults, stagedRows, hloc]
  refine ⟨by simp [create_user, hcf, noFaults], by rw [hst], ?_⟩
  rw [hst]
  simp [get_user, docGet?_docSet_self, hfresh]

/-- Witness for C8: create without a location, then fetch. -/
theorem create_user_no_location_witness :
    (get_user (create_user emptyStores "u1" samplePayloadNoLoc noFaults).stores "u1").1 =
      Resp.okUser samplePayloadNoLoc.docFields "u1" none :=
  (create_user_no_location emptyStores "u1" samplePayloadNoLoc
    (by decide) (by decide) (by decide) (by decide)).2.2
